import Mathlib

set_option maxHeartbeats 1000000

/-!
Verification development for the Document Content Analysis Engine of the
Document_Analysis repository.

The repository ships the presentation shell `src/analysis.py`, which imports
the engine class `DocumentAnalyzer` from a module `document_analyzer` that is
not present in the repository.  The shell itself contains one piece of
computational logic, `display_color_palette`, which is embedded below directly
from the source.  Every component of the engine proper (format extraction,
text statistics, image color classification, dominant-color clustering,
aggregation) is modelled from the specification, as noted on each definition.
-/

/-! ## Text Statistics Analyzer -/

/-- Modelled from the spec: the whitespace alphabet used by the Text
Statistics Analyzer (the engine module `document_analyzer.py` is missing from
the repository); the usual ASCII whitespace characters. -/
def isWS (c : Char) : Bool :=
  c == ' ' || c == '\t' || c == '\n' || c == '\r' || c == '\x0b' || c == '\x0c'

/-- Counts maximal runs of elements on which `p` is `false`; the flag records
whether the previous element was inside such a run. -/
def countRuns {α : Type} (p : α → Bool) : List α → Bool → Nat
  | [], _ => 0
  | a :: rest, inRun =>
    if p a then countRuns p rest false
    else (if inRun then 0 else 1) + countRuns p rest true

/-- Modelled from the spec: `wordCount` is the number of maximal
whitespace-delimited non-empty tokens of the text. -/
def word_count (t : List Char) : Nat := countRuns isWS t false

/-- Modelled from the spec: `charCount` is the total number of characters in
the text, whitespace included. -/
def char_count (t : List Char) : Nat := t.length

/-- Splits a text into its lines at newline characters.  Always returns at
least one (possibly empty) line. -/
def splitLines : List Char → List (List Char)
  | [] => [[]]
  | c :: rest =>
    if c = '\n' then [] :: splitLines rest
    else
      match splitLines rest with
      | [] => [[c]]
      | l :: ls => (c :: l) :: ls

/-- A blank line is a whitespace-only (possibly empty) line. -/
def isBlankLine (l : List Char) : Bool := l.all isWS

/-- Modelled from the spec: `paragraphCount` is the number of blocks of text
separated by one or more blank lines; leading/trailing blank runs do not
create empty paragraphs. -/
def paragraph_count (t : List Char) : Nat :=
  countRuns isBlankLine (splitLines t) false

/-- The text-statistics record, with the field names the shell reads from the
`text_analysis` dictionary of the result (src/analysis.py lines 115-119). -/
structure TextAnalysis where
  word_count : Nat
  char_count : Nat
  paragraph_count : Nat
deriving DecidableEq

/-- Modelled from the spec: the Text Statistics Analyzer, a pure function of
the extracted text. -/
def text_statistics (t : List Char) : TextAnalysis :=
  { word_count := word_count t
    char_count := char_count t
    paragraph_count := paragraph_count t }

theorem countRuns_false_eq_zero {α : Type} (p : α → Bool) (l : List α) :
    countRuns p l false = 0 ↔ ∀ a ∈ l, p a = true := by
  induction l with
  | nil => simp [countRuns]
  | cons a rest ih =>
    by_cases h : p a = true
    · simp [countRuns, h, ih]
    · simp only [countRuns, h, if_neg, Bool.false_eq_true, if_false, if_true]
      constructor
      · intro hz
        omega
      · intro hall
        exact absurd (hall a (List.mem_cons_self a rest)) h

theorem splitLines_ne_nil (t : List Char) : splitLines t ≠ [] := by
  cases t with
  | nil => simp [splitLines]
  | cons c rest =>
    simp only [splitLines]
    split
    · simp
    · split <;> simp

theorem splitLines_blank_iff (t : List Char) :
    (∀ l ∈ splitLines t, isBlankLine l = true) ↔ ∀ c ∈ t, isWS c = true := by
  induction t with
  | nil => simp [splitLines, isBlankLine]
  | cons c rest ih =>
    by_cases h : c = '\n'
    · subst h
      have hunf : splitLines ('\n' :: rest) = [] :: splitLines rest := by
        simp [splitLines]
      rw [hunf]
      constructor
      · intro hb c' hc'
        rcases List.mem_cons.mp hc' with rfl | hc2
        · decide
        · exact (ih.mp fun l hl => hb l (List.mem_cons_of_mem _ hl)) c' hc2
      · intro hw l hl
        rcases List.mem_cons.mp hl with rfl | hl2
        · decide
        · exact ih.mpr (fun c' hc' => hw c' (List.mem_cons_of_mem _ hc')) l hl2
    · cases hsl : splitLines rest with
      | nil => exact absurd hsl (splitLines_ne_nil rest)
      | cons l ls =>
        have hunf : splitLines (c :: rest) = (c :: l) :: ls := by
          simp only [splitLines, if_neg h, hsl]
        rw [hsl] at ih
        rw [hunf]
        constructor
        · intro hb c' hc'
          rcases List.mem_cons.mp hc' with rfl | hc2
          · have hhead := hb (c' :: l) (List.mem_cons_self _ _)
            simp only [isBlankLine, List.all_cons, Bool.and_eq_true] at hhead
            exact hhead.1
          · refine ih.mp ?_ c' hc2
            intro l' hl'
            rcases List.mem_cons.mp hl' with rfl | hl2
            · have hhead := hb (c :: l') (List.mem_cons_self _ _)
              simp only [isBlankLine, List.all_cons, Bool.and_eq_true] at hhead
              exact hhead.2
            · exact hb l' (List.mem_cons_of_mem _ hl2)
        · intro hw
          have hrest := ih.mpr fun c' hc' => hw c' (List.mem_cons_of_mem _ hc')
          intro l' hl'
          rcases List.mem_cons.mp hl' with rfl | hl2
          · have hc := hw c (List.mem_cons_self _ _)
            have hl := hrest l (List.mem_cons_self _ _)
            simp only [isBlankLine, List.all_cons, Bool.and_eq_true] at hl ⊢
            exact ⟨hc, hl⟩
          · exact hrest l' (List.mem_cons_of_mem _ hl2)

/-- Claim C6: for every input text, the Text Statistics Analyzer returns
`wordCount = 0` iff the text is empty or whitespace-only, and
`paragraphCount = 0` iff the text is empty or whitespace-only. -/
theorem C6_zero_counts_iff_whitespace_only (t : List Char) :
    ((text_statistics t).word_count = 0 ↔ ∀ c ∈ t, isWS c = true) ∧
    ((text_statistics t).paragraph_count = 0 ↔ ∀ c ∈ t, isWS c = true) := by
  constructor
  · exact countRuns_false_eq_zero isWS t
  · exact (countRuns_false_eq_zero isBlankLine (splitLines t)).trans
      (splitLines_blank_iff t)

/-! ## Image model and Image Color Classifier -/

/-- A decoded pixel: row-major 3-channel color samples per the spec's
ImageRecord pixel buffer. -/
structure Pixel where
  r : Nat
  g : Nat
  b : Nat
deriving DecidableEq

/-- Modelled from the spec: the three mutually exclusive color
classifications. -/
inductive ColorClass where
  | color
  | grayscale
  | blackAndWhite
deriving DecidableEq

/-- Modelled from the spec: fixed chroma tolerance — a pixel is chromatic when
its maximum inter-channel difference exceeds this constant. -/
def chroma_tolerance : Nat := 15

/-- Modelled from the spec: presence fraction numerator — an image is Color
when more than `presence_num / presence_den` of its pixels are chromatic. -/
def presence_num : Nat := 1

/-- Modelled from the spec: presence fraction denominator. -/
def presence_den : Nat := 20

/-- Modelled from the spec: half-width of the luminance band around pure
black and pure white used for the BlackAndWhite decision. -/
def bw_band : Nat := 30

/-- Maximum inter-channel difference of a pixel: max(R,G,B) − min(R,G,B). -/
def channelDiff (p : Pixel) : Nat :=
  max p.r (max p.g p.b) - min p.r (min p.g p.b)

/-- A pixel is chromatic when its inter-channel difference exceeds the fixed
tolerance. -/
def isChromatic (p : Pixel) : Bool :=
  decide (chroma_tolerance < channelDiff p)

/-- Integer luminance of a pixel (Rec. 601 weights, scaled by 1000). -/
def luminance (p : Pixel) : Nat :=
  (299 * p.r + 587 * p.g + 114 * p.b) / 1000

/-- A pixel lies in the narrow luminance band around pure black or pure
white. -/
def isNearBW (p : Pixel) : Bool :=
  decide (luminance p ≤ bw_band) || decide (255 - bw_band ≤ luminance p)

/-- Modelled from the spec: the Image Color Classifier.  Color when the
fraction of chromatic pixels exceeds the presence threshold; otherwise
BlackAndWhite when every pixel's luminance is near pure black or pure white,
and Grayscale otherwise. -/
def classify (img : List Pixel) : ColorClass :=
  if (img.filter isChromatic).length * presence_den > img.length * presence_num then
    ColorClass.color
  else if img.all isNearBW then
    ColorClass.blackAndWhite
  else
    ColorClass.grayscale

/-! ## Dominant Color Extractor -/

/-- A dominant-color entry, with the dictionary keys the shell reads in
`display_color_palette` (src/analysis.py lines 51-52). -/
structure ColorEntry where
  rgb : Nat × Nat × Nat
  count : Nat
deriving DecidableEq

/-- Modelled from the spec: clustering configuration — target palette size
`k` and the fixed iteration cap that keeps clustering deterministic. -/
structure ClusterConfig where
  k : Nat
  iterations : Nat
deriving DecidableEq

/-- Modelled from the spec: the default configuration (`k = 5`, a small
fixed iteration cap). -/
def defaultClusterConfig : ClusterConfig := { k := 5, iterations := 10 }

/-- Appends a pixel to an accumulator of distinct colors unless already
present (keeps first-occurrence order). -/
def addDistinct (acc : List Pixel) (p : Pixel) : List Pixel :=
  if p ∈ acc then acc else acc ++ [p]

/-- The distinct colors of an image in first-occurrence order. -/
def distinctColors (img : List Pixel) : List Pixel :=
  img.foldl addDistinct []

/-- Number of pixels of an image with exactly the given color. -/
def countPixel (img : List Pixel) (p : Pixel) : Nat :=
  (img.filter (fun q => decide (q = p))).length

/-- Squared difference of two channel values. -/
def sqDiff (x y : Nat) : Nat := (max x y - min x y) ^ 2

/-- Squared Euclidean distance between two colors. -/
def colorDistSq (a b : Pixel) : Nat :=
  sqDiff a.r b.r + sqDiff a.g b.g + sqDiff a.b b.b

/-- Index of the nearest centroid to a pixel (ties broken toward the earlier
centroid), 0 when there are no centroids. -/
def nearestIdx (cs : List Pixel) (p : Pixel) : Nat :=
  (cs.enum.foldl
    (fun acc ic =>
      match acc with
      | none => some (ic.1, colorDistSq ic.2 p)
      | some (bi, bd) =>
        if colorDistSq ic.2 p < bd then some (ic.1, colorDistSq ic.2 p)
        else some (bi, bd))
    none).elim 0 Prod.fst

/-- Componentwise mean color of a cluster; an empty cluster keeps its old
centroid. -/
def meanPixel (old : Pixel) (ps : List Pixel) : Pixel :=
  match ps.length with
  | 0 => old
  | n =>
    { r := (ps.map Pixel.r).sum / n
      g := (ps.map Pixel.g).sum / n
      b := (ps.map Pixel.b).sum / n }

/-- One iteration of centroid refinement: each centroid moves to the mean of
the pixels assigned to it. -/
def kmeansStep (img : List Pixel) (cs : List Pixel) : List Pixel :=
  cs.enum.map
    (fun ic => meanPixel ic.2 (img.filter (fun p => decide (nearestIdx cs p = ic.1))))

/-- Iterated centroid refinement under the fixed iteration cap. -/
def kmeansIter : Nat → List Pixel → List Pixel → List Pixel
  | 0, _, cs => cs
  | n + 1, img, cs => kmeansIter n img (kmeansStep img cs)

/-- Insertion step of the descending-by-count sort of a palette. -/
def insertByCount (e : ColorEntry) : List ColorEntry → List ColorEntry
  | [] => [e]
  | x :: xs => if x.count < e.count then e :: x :: xs else x :: insertByCount e xs

/-- Sorts a palette descending by pixel count. -/
def sortByCountDesc (l : List ColorEntry) : List ColorEntry :=
  l.foldr insertByCount []

/-- Modelled from the spec: deterministic k-means centroids, seeded from the
first `k` distinct colors of the image and refined under the fixed iteration
cap. -/
def kmeansCentroids (cfg : ClusterConfig) (img : List Pixel) : List Pixel :=
  kmeansIter cfg.iterations img ((distinctColors img).take cfg.k)

/-- Palette entries of the k-means clusters: centroid color plus member
pixel count. -/
def kmeansEntries (cfg : ClusterConfig) (img : List Pixel) : List ColorEntry :=
  (kmeansCentroids cfg img).enum.map
    (fun ic =>
      { rgb := (ic.2.r, ic.2.g, ic.2.b)
        count :=
          (img.filter
            (fun p => decide (nearestIdx (kmeansCentroids cfg img) p = ic.1))).length })

/-- Modelled from the spec: the Dominant Color Extractor.  When the image has
fewer distinct colors than `k`, one entry per distinct color; otherwise
deterministic k-means (centroids seeded from the first `k` distinct colors,
fixed iteration cap), dropping empty clusters; in both cases sorted
descending by count. -/
def dominantColorSet (cfg : ClusterConfig) (img : List Pixel) : List ColorEntry :=
  if (distinctColors img).length < cfg.k then
    sortByCountDesc
      ((distinctColors img).map
        (fun c => { rgb := (c.r, c.g, c.b), count := countPixel img c }))
  else
    sortByCountDesc ((kmeansEntries cfg img).filter (fun e => decide (0 < e.count)))

theorem foldl_addDistinct_const (r : Pixel) (l : List Pixel) :
    ∀ acc : List Pixel, l ≠ [] → (∀ x ∈ l, x = r) →
      l.foldl addDistinct acc = addDistinct acc r := by
  induction l with
  | nil => intro acc h _; exact absurd rfl h
  | cons x rest ih =>
    intro acc _ hall
    have hx : x = r := hall x (List.mem_cons_self _ _)
    subst hx
    rw [List.foldl_cons]
    by_cases hr : rest = []
    · subst hr; rfl
    · rw [ih (addDistinct acc x) hr (fun y hy => hall y (List.mem_cons_of_mem _ hy))]
      by_cases hmem : x ∈ acc <;> simp [addDistinct, hmem]

theorem distinctColors_const (r : Pixel) (img : List Pixel) (hne : img ≠ [])
    (hall : ∀ p ∈ img, p = r) : distinctColors img = [r] := by
  unfold distinctColors
  rw [foldl_addDistinct_const r img [] hne hall]
  simp [addDistinct]

/-- Claim C7: an image whose every pixel is pure red (255,0,0) classifies as
Color, and its dominant-color set is the single entry with rgb (255,0,0)
whose count is the image's pixel count. -/
theorem C7_pure_red_image (img : List Pixel) (hne : img ≠ [])
    (hall : ∀ p ∈ img, p = ⟨255, 0, 0⟩) :
    classify img = ColorClass.color ∧
    dominantColorSet defaultClusterConfig img =
      [{ rgb := (255, 0, 0), count := img.length }] := by
  have hd : distinctColors img = [⟨255, 0, 0⟩] := distinctColors_const _ img hne hall
  constructor
  · have hfil : img.filter isChromatic = img :=
      List.filter_eq_self.mpr fun p hp => by rw [hall p hp]; decide
    have hpos : 0 < img.length := List.length_pos.mpr hne
    unfold classify
    rw [hfil]
    have hcond : img.length * presence_den > img.length * presence_num := by
      simp only [presence_den, presence_num]
      omega
    rw [if_pos hcond]
  · have hcnt : countPixel img ⟨255, 0, 0⟩ = img.length := by
      unfold countPixel
      rw [List.filter_eq_self.mpr fun p hp => by rw [hall p hp]; decide]
    have h1 : (distinctColors img).length < defaultClusterConfig.k := by
      rw [hd]; decide
    unfold dominantColorSet
    rw [if_pos h1, hd]
    simp [sortByCountDesc, insertByCount, hcnt]

/-- Claim C8: an image whose every pixel has R=G=B=128 classifies as
Grayscale, and an image whose pixels are only pure black (0,0,0) and pure
white (255,255,255) classifies as BlackAndWhite. -/
theorem C8_achromatic_images (img : List Pixel) :
    (img ≠ [] → (∀ p ∈ img, p = ⟨128, 128, 128⟩) →
      classify img = ColorClass.grayscale) ∧
    ((∀ p ∈ img, p = ⟨0, 0, 0⟩ ∨ p = ⟨255, 255, 255⟩) →
      classify img = ColorClass.blackAndWhite) := by
  constructor
  · intro hne hall
    have hfil : img.filter isChromatic = [] :=
      List.filter_eq_nil_iff.mpr fun p hp => by rw [hall p hp]; decide
    have hnotall : img.all isNearBW = false := by
      cases img with
      | nil => exact absurd rfl hne
      | cons p rest =>
        rw [hall p (List.mem_cons_self _ _), List.all_cons,
          show isNearBW ⟨128, 128, 128⟩ = false from by decide]
        rfl
    unfold classify
    rw [hfil]
    have hcond : ¬ (([] : List Pixel).length * presence_den > img.length * presence_num) := by
      simp [presence_den, presence_num]
    rw [if_neg hcond]
    simp [hnotall]
  · intro hall
    have hfil : img.filter isChromatic = [] :=
      List.filter_eq_nil_iff.mpr fun p hp => by
        rcases hall p hp with h | h <;> (rw [h]; decide)
    have hbw : img.all isNearBW = true :=
      List.all_eq_true.mpr fun p hp => by
        rcases hall p hp with h | h <;> (rw [h]; decide)
    unfold classify
    rw [hfil]
    have hcond : ¬ (([] : List Pixel).length * presence_den > img.length * presence_num) := by
      simp [presence_den, presence_num]
    rw [if_neg hcond]
    simp [hbw]

/-- Witness for C7 at a concrete two-pixel pure-red image. -/
theorem C7_witness :
    classify [⟨255, 0, 0⟩, ⟨255, 0, 0⟩] = ColorClass.color ∧
    dominantColorSet defaultClusterConfig [⟨255, 0, 0⟩, ⟨255, 0, 0⟩] =
      [{ rgb := (255, 0, 0), count := 2 }] :=
  C7_pure_red_image [⟨255, 0, 0⟩, ⟨255, 0, 0⟩] (by decide) (by decide)

/-- Witness for C8 at a concrete mid-gray image and a concrete bilevel
image. -/
theorem C8_witness :
    classify [⟨128, 128, 128⟩] = ColorClass.grayscale ∧
    classify [⟨0, 0, 0⟩, ⟨255, 255, 255⟩] = ColorClass.blackAndWhite :=
  ⟨(C8_achromatic_images [⟨128, 128, 128⟩]).1 (by decide) (by decide),
   (C8_achromatic_images [⟨0, 0, 0⟩, ⟨255, 255, 255⟩]).2 (by decide)⟩

/-! ## Format Extractor output and Analysis Aggregator -/

/-- Modelled from the spec: one embedded image as the Format Extractor hands
it over — encoding name, originating page (`none` = unknown, as in DOCX),
stated dimensions, and the decode result (`none` models a per-image
`ImageDecodeError`). -/
structure EmbeddedImage where
  format : String
  page : Option Nat
  dimensions : Nat × Nat
  decode : Option (List Pixel)
deriving DecidableEq

/-- Modelled from the spec: the Format Extractor's output for a document
whose container could be opened — raw text, page count, and the ordered
sequence of embedded images. -/
structure RawDocument where
  text : List Char
  page_count : Nat
  images : List EmbeddedImage
deriving DecidableEq

/-- Modelled from the spec: the document byte stream, abstracted to what the
Format Extractor observes of it — `parse = none` when the container cannot
be opened at all. -/
structure DocumentBytes where
  parse : Option RawDocument
deriving DecidableEq

/-- Modelled from the spec: the three error kinds of §7.  `imageDecodeError`
is recovered locally and never escapes `analyze`. -/
inductive AnalysisError where
  | unsupportedFormat
  | corruptDocument
  | imageDecodeError
deriving DecidableEq

/-- The `color_summary` dictionary, with the keys the shell reads
(src/analysis.py lines 161-163). -/
structure ColorSummary where
  color : Nat
  grayscale : Nat
  black_white : Nat
deriving DecidableEq

/-- A per-image record of the result, with the keys the shell reads
(src/analysis.py lines 190-193). -/
structure ImageInfo where
  index : Nat
  dimensions : Nat × Nat
  format : String
  page : Option Nat
deriving DecidableEq

/-- A dominant-color record of the result, with the keys the shell reads
(src/analysis.py lines 203-205). -/
structure DominantColorInfo where
  image_index : Nat
  colors : List ColorEntry
deriving DecidableEq

/-- The terminal immutable aggregate, with the field names the shell reads
from the result dictionary of `analyze_document` (src/analysis.py lines
113-120 and 153-205; the `image_analysis` sub-dictionary is flattened). -/
structure AnalysisResult where
  document_type : String
  page_count : Nat
  text_analysis : TextAnalysis
  image_count : Nat
  color_summary : ColorSummary
  images : List ImageInfo
  dominant_colors : List DominantColorInfo
deriving DecidableEq

/-- The successfully decoded images of a document, each paired with its
pixel buffer; images whose decode fails are skipped. -/
def decodedImages (raw : RawDocument) : List (EmbeddedImage × List Pixel) :=
  raw.images.filterMap (fun e => e.decode.map (fun px => (e, px)))

/-- The embedded images whose decode succeeds. -/
def decodableImages (raw : RawDocument) : List EmbeddedImage :=
  raw.images.filter (fun e => e.decode.isSome)

/-- Tallies the classifications of a list of images into the color summary. -/
def summarize (cs : List ColorClass) : ColorSummary :=
  { color := (cs.filter (fun c => decide (c = ColorClass.color))).length
    grayscale := (cs.filter (fun c => decide (c = ColorClass.grayscale))).length
    black_white := (cs.filter (fun c => decide (c = ColorClass.blackAndWhite))).length }

/-- Modelled from the spec: the Analysis Aggregator — runs the Text
Statistics Analyzer on the text and the classifier and Dominant Color
Extractor on every successfully decoded image, and assembles the immutable
result. -/
def aggregate (cfg : ClusterConfig) (fmt : String) (raw : RawDocument) : AnalysisResult :=
  { document_type := fmt
    page_count := raw.page_count
    text_analysis := text_statistics raw.text
    image_count := (decodedImages raw).length
    color_summary := summarize ((decodedImages raw).map (fun ip => classify ip.2))
    images := (decodedImages raw).enum.map
      (fun ie =>
        { index := ie.1
          dimensions := ie.2.1.dimensions
          format := ie.2.1.format
          page := ie.2.1.page })
    dominant_colors := (decodedImages raw).enum.map
      (fun ie => { image_index := ie.1, colors := dominantColorSet cfg ie.2.2 }) }

/-- Modelled from the spec: the engine's sole operation
`analyze(documentBytes, declaredFormat)`, parameterized by the clustering
configuration.  Fails with `UnsupportedFormatError` for a declared format
other than PDF/DOCX and with `CorruptDocumentError` when the container
cannot be opened; no partial result accompanies either error. -/
def analyzeWith (cfg : ClusterConfig) (bytes : DocumentBytes) (fmt : String) :
    Except AnalysisError AnalysisResult :=
  if fmt = "pdf" ∨ fmt = "docx" then
    match bytes.parse with
    | some raw => Except.ok (aggregate cfg fmt raw)
    | none => Except.error AnalysisError.corruptDocument
  else
    Except.error AnalysisError.unsupportedFormat

/-- The engine operation under the default (fixed, deterministic) clustering
configuration. -/
def analyze (bytes : DocumentBytes) (fmt : String) :
    Except AnalysisError AnalysisResult :=
  analyzeWith defaultClusterConfig bytes fmt

theorem summarize_sum (cs : List ColorClass) :
    (summarize cs).color + (summarize cs).grayscale + (summarize cs).black_white
      = cs.length := by
  induction cs with
  | nil => rfl
  | cons c rest ih =>
    cases c <;>
      simp only [summarize, List.filter_cons, decide_eq_true_eq, List.length_cons] at ih ⊢ <;>
      simp <;> omega

theorem filterMap_decode_filter (l : List EmbeddedImage) :
    (l.filter (fun e => e.decode.isSome)).filterMap
        (fun e => e.decode.map (fun px => (e, px)))
      = l.filterMap (fun e => e.decode.map (fun px => (e, px))) := by
  induction l with
  | nil => rfl
  | cons e rest ih =>
    cases hd : e.decode with
    | none => simp [List.filter_cons, List.filterMap_cons, hd, ih]
    | some px => simp [List.filter_cons, List.filterMap_cons, hd, ih]

theorem length_decodedImages (l : List EmbeddedImage) :
    (l.filterMap (fun e => e.decode.map (fun px => (e, px)))).length
      = (l.filter (fun e => e.decode.isSome)).length := by
  induction l with
  | nil => rfl
  | cons e rest ih =>
    cases hd : e.decode <;> simp [List.filter_cons, List.filterMap_cons, hd, ih]

/-- A concrete embedded image that decodes to a two-pixel pure-red buffer. -/
def exImageRed : EmbeddedImage :=
  { format := "png", page := some 0, dimensions := (2, 1)
    decode := some [⟨255, 0, 0⟩, ⟨255, 0, 0⟩] }

/-- A concrete embedded image whose decode fails. -/
def exImageBad : EmbeddedImage :=
  { format := "jpeg", page := none, dimensions := (3, 3), decode := none }

/-- A concrete extracted document with one unreadable and one readable
image. -/
def exRaw : RawDocument :=
  { text := ['H', 'i'], page_count := 1, images := [exImageBad, exImageRed] }

/-- Concrete document bytes whose container opens to `exRaw`. -/
def exBytes : DocumentBytes := { parse := some exRaw }

/-- Concrete document bytes whose container cannot be opened. -/
def exBytesCorrupt : DocumentBytes := { parse := none }

/-- Claim C1: for every AnalysisResult produced by analyze, the three
colorSummary counts (color, grayscale, blackAndWhite) sum exactly to
imageCount. -/
theorem C1_color_summary_sums_to_image_count (bytes : DocumentBytes)
    (fmt : String) (res : AnalysisResult) (h : analyze bytes fmt = Except.ok res) :
    res.color_summary.color + res.color_summary.grayscale + res.color_summary.black_white
      = res.image_count := by
  unfold analyze analyzeWith at h
  by_cases hf : fmt = "pdf" ∨ fmt = "docx"
  · rw [if_pos hf] at h
    cases hp : bytes.parse with
    | none => rw [hp] at h; exact absurd h (by simp)
    | some raw =>
      rw [hp] at h
      have hres := Except.ok.inj h
      subst hres
      simp only [aggregate]
      rw [summarize_sum]
      simp
  · rw [if_neg hf] at h
    exact absurd h (by simp)

/-- Witness for C1 at a concrete document with one unreadable and one
readable image. -/
theorem C1_witness :
    (aggregate defaultClusterConfig "pdf" exRaw).color_summary.color +
        (aggregate defaultClusterConfig "pdf" exRaw).color_summary.grayscale +
        (aggregate defaultClusterConfig "pdf" exRaw).color_summary.black_white
      = (aggregate defaultClusterConfig "pdf" exRaw).image_count :=
  C1_color_summary_sums_to_image_count exBytes "pdf"
    (aggregate defaultClusterConfig "pdf" exRaw) rfl

/-- Claim C2: for every document byte stream and declared format, two
invocations of analyze with the same fixed clustering seed/configuration
yield identical AnalysisResult values, including the ordering of every
DominantColorSet. -/
theorem C2_analysis_deterministic (cfg : ClusterConfig) (bytes : DocumentBytes)
    (fmt : String) (r1 r2 : AnalysisResult)
    (h1 : analyzeWith cfg bytes fmt = Except.ok r1)
    (h2 : analyzeWith cfg bytes fmt = Except.ok r2) :
    r1 = r2 ∧ r1.dominant_colors = r2.dominant_colors := by
  have h := Except.ok.inj (h1.symm.trans h2)
  exact ⟨h, by rw [h]⟩

/-- Witness for C2 at a concrete document. -/
theorem C2_witness :
    aggregate defaultClusterConfig "pdf" exRaw = aggregate defaultClusterConfig "pdf" exRaw ∧
    (aggregate defaultClusterConfig "pdf" exRaw).dominant_colors =
      (aggregate defaultClusterConfig "pdf" exRaw).dominant_colors :=
  C2_analysis_deterministic defaultClusterConfig exBytes "pdf" _ _ rfl rfl

/-- Claim C4: a failing per-image decode is non-fatal — the call still
succeeds, the result coincides with that of the same document with the
unreadable images removed, and imageCount counts exactly the decodable
images. -/
theorem C4_decode_failures_skipped (bytes : DocumentBytes) (fmt : String)
    (raw : RawDocument) (hf : fmt = "pdf" ∨ fmt = "docx")
    (hp : bytes.parse = some raw) :
    analyze bytes fmt = Except.ok (aggregate defaultClusterConfig fmt raw) ∧
    aggregate defaultClusterConfig fmt raw =
      aggregate defaultClusterConfig fmt { raw with images := decodableImages raw } ∧
    (aggregate defaultClusterConfig fmt raw).image_count = (decodableImages raw).length := by
  refine ⟨?_, ?_, ?_⟩
  · unfold analyze analyzeWith
    rw [if_pos hf, hp]
  · have hdec : decodedImages { raw with images := decodableImages raw } = decodedImages raw :=
      filterMap_decode_filter raw.images
    unfold aggregate
    rw [hdec]
  · exact length_decodedImages raw.images

/-- Witness for C4 at a concrete document with one unreadable image. -/
theorem C4_witness :
    analyze exBytes "pdf" = Except.ok (aggregate defaultClusterConfig "pdf" exRaw) ∧
    aggregate defaultClusterConfig "pdf" exRaw =
      aggregate defaultClusterConfig "pdf" { exRaw with images := decodableImages exRaw } ∧
    (aggregate defaultClusterConfig "pdf" exRaw).image_count = (decodableImages exRaw).length :=
  C4_decode_failures_skipped exBytes "pdf" exRaw (Or.inl rfl) rfl

/-- Claim C5: analyze fails with UnsupportedFormatError for every declared
format other than PDF and DOCX, and with CorruptDocumentError when the
container cannot be opened; in both cases the whole call fails and no
partial AnalysisResult accompanies the error. -/
theorem C5_fatal_errors (bytes : DocumentBytes) (fmt : String) :
    (fmt ≠ "pdf" → fmt ≠ "docx" →
      analyze bytes fmt = Except.error AnalysisError.unsupportedFormat) ∧
    ((fmt = "pdf" ∨ fmt = "docx") → bytes.parse = none →
      analyze bytes fmt = Except.error AnalysisError.corruptDocument) := by
  constructor
  · intro h1 h2
    have hno : ¬ (fmt = "pdf" ∨ fmt = "docx") := by
      rintro (h | h)
      · exact h1 h
      · exact h2 h
    unfold analyze analyzeWith
    rw [if_neg hno]
  · intro hf hp
    unfold analyze analyzeWith
    rw [if_pos hf, hp]

/-- Witness for C5 at the format "txt" and at a corrupt byte stream declared
as PDF. -/
theorem C5_witness :
    analyze exBytesCorrupt "txt" = Except.error AnalysisError.unsupportedFormat ∧
    analyze exBytesCorrupt "pdf" = Except.error AnalysisError.corruptDocument :=
  ⟨(C5_fatal_errors exBytesCorrupt "txt").1 (by decide) (by decide),
   (C5_fatal_errors exBytesCorrupt "pdf").2 (Or.inl rfl) rfl⟩

/-! ## The long-lived analyzer object -/

/-- Modelled from the spec: the long-lived analyzer object of the source.
Design note §9 records that the source keeps the per-call extracted text as
an attribute on this object, and the shell indeed reads
`analyzer.text_content` after the call (src/analysis.py line 146). -/
structure DocumentAnalyzer where
  text_content : List Char
deriving DecidableEq

/-- A freshly constructed analyzer, as built by the shell at
src/analysis.py line 97. -/
def DocumentAnalyzer.new : DocumentAnalyzer := { text_content := [] }

/-- Modelled from the spec: `analyze_document` as invoked by the shell
(src/analysis.py line 100) — it computes the result of `analyze` and, on
success, stores the extracted text on the analyzer object. -/
def DocumentAnalyzer.analyze_document (a : DocumentAnalyzer) (bytes : DocumentBytes)
    (fmt : String) : DocumentAnalyzer × Except AnalysisError AnalysisResult :=
  if fmt = "pdf" ∨ fmt = "docx" then
    match bytes.parse with
    | some raw => ({ text_content := raw.text },
        Except.ok (aggregate defaultClusterConfig fmt raw))
    | none => (a, Except.error AnalysisError.corruptDocument)
  else
    (a, Except.error AnalysisError.unsupportedFormat)

/-- Counterexample to C3 as stated: the engine does hold cross-call mutable
state — after one successful call the analyzer object differs from a fresh
one (its `text_content` attribute now carries the extracted text). -/
theorem C3_counterexample :
    (DocumentAnalyzer.new.analyze_document exBytes "pdf").1 ≠ DocumentAnalyzer.new := by
  decide

/-- Claim C3 (amended): the analyzer object does carry a mutable
`text_content` attribute across calls, but each call overwrites it before
use, so the returned result is a function of only (documentBytes,
declaredFormat): a call on an already-used analyzer — whatever its carried
state — returns the same result as a call on a fresh one. -/
theorem C3_result_independent_of_state (a a' : DocumentAnalyzer)
    (bytes : DocumentBytes) (fmt : String) :
    (a.analyze_document bytes fmt).2 = (a'.analyze_document bytes fmt).2 := by
  unfold DocumentAnalyzer.analyze_document
  by_cases h : fmt = "pdf" ∨ fmt = "docx"
  · rw [if_pos h, if_pos h]
    cases bytes.parse <;> rfl
  · rw [if_neg h, if_neg h]

/-! ## display_color_palette (embedded from src/analysis.py lines 46-85) -/

/-- One bar of the palette figure: the bar's normalized color, its left
offset and width on the [0,1] axis, and — when the share exceeds 5% — a
label whose text is white exactly when the rgb components sum below 380
(src/analysis.py lines 63-79). -/
structure PaletteBar where
  color : ℚ × ℚ × ℚ
  left : ℚ
  width : ℚ
  label : Option Bool

/-- The divisor `total = sum(counts)` of src/analysis.py line 55. -/
def palette_total (colors : List ColorEntry) : Nat :=
  (colors.map (fun c => c.count)).sum

/-- The bar-building loop of src/analysis.py lines 62-79, carrying the
running `start` offset. -/
def buildBars : List (Nat × Nat × Nat) → List ℚ → ℚ → List PaletteBar
  | rgb :: rgbs, pct :: pcts, start =>
    { color := ((rgb.1 : ℚ) / 255, (rgb.2.1 : ℚ) / 255, (rgb.2.2 : ℚ) / 255)
      left := start
      width := pct
      label := if (1 : ℚ) / 20 < pct then some (decide (rgb.1 + rgb.2.1 + rgb.2.2 < 380))
               else none } ::
      buildBars rgbs pcts (start + pct)
  | _, _, _ => []

/-- The function display_color_palette of src/analysis.py lines 46-85:
returns `None` on an empty colors list, otherwise normalizes the counts by
`total = sum(counts)` and lays the color bars side by side. -/
def display_color_palette (colors : List ColorEntry) : Option (List PaletteBar) :=
  if colors = [] then none
  else
    some (buildBars (colors.map (fun c => c.rgb))
      ((colors.map (fun c => c.count)).map
        (fun cnt => (cnt : ℚ) / (palette_total colors : ℚ)))
      0)

/-- Claim C10: for the empty colors list, display_color_palette returns None
(the early guard of src/analysis.py lines 47-48) and touches no entry. -/
theorem C10_empty_palette_returns_none : display_color_palette [] = none := rfl

/-- Claim C9: for every non-empty colors list whose every count is a
positive integer, the divisor `total = sum(counts)` computed after the
empty-list guard is strictly positive, so display_color_palette never
divides by zero (and takes the bar-building branch). -/
theorem C9_palette_total_positive (colors : List ColorEntry)
    (hne : colors ≠ []) (hpos : ∀ c ∈ colors, 0 < c.count) :
    0 < palette_total colors ∧ display_color_palette colors ≠ none := by
  constructor
  · cases colors with
    | nil => exact absurd rfl hne
    | cons c rest =>
      have hc := hpos c (List.mem_cons_self _ _)
      simp only [palette_total, List.map_cons, List.sum_cons]
      omega
  · unfold display_color_palette
    rw [if_neg hne]
    simp

/-- Witness for C9 at a concrete one-entry palette. -/
theorem C9_witness :
    0 < palette_total [{ rgb := (10, 20, 30), count := 4 }] ∧
    display_color_palette [{ rgb := (10, 20, 30), count := 4 }] ≠ none :=
  C9_palette_total_positive [{ rgb := (10, 20, 30), count := 4 }]
    (by decide) (by decide)
